import Mathlib

/-!
Shallow embedding of `src/app.py`, a single-file streaming control surface:
a session supervisor (`run_ffmpeg` worker plus start/stop handlers in `main`),
a playlist builder (`update_lists`), a sqlite-backed event log
(`log_to_database` and the recent-events query), and media erase loops.

External effects (the spawned encoder process, the random number generator,
the filesystem snapshot returned by `Path.glob`) are modelled as explicit
oracle parameters; machine state (the `st.session_state` flags, the log
database, the transient playlist files) is passed and returned explicitly.
-/

namespace DataServer

/-- Python's `needle in hay` substring test, as infix containment of the
character lists. -/
def occursIn (needle hay : String) : Prop :=
  needle.data <:+: hay.data

instance (n h : String) : Decidable (occursIn n h) :=
  List.decidableInfix n.data h.data

/-- Boolean form of `occursIn`, used where the source branches on `in`. -/
def pyIn (needle hay : String) : Bool :=
  decide (occursIn needle hay)

/-- `output_url = f"rtmp://a.rtmp.youtube.com/live2/{stream_key}"` (line 55). -/
def outputURL (stream_key : String) : String :=
  "rtmp://a.rtmp.youtube.com/live2/" ++ stream_key

/-- `video_list_path = Path(f"videos_{session_id}.txt")` (line 70). -/
def videoListPath (session_id : String) : String :=
  "videos_" ++ session_id ++ ".txt"

/-- `audio_list_path = Path(f"audios_{session_id}.txt")` (line 71). -/
def audioListPath (session_id : String) : String :=
  "audios_" ++ session_id ++ ".txt"

/-- One playlist reference line, `f"file '{path}'"` (lines 81 and 88).
Assets are identified here by the absolute path string that
`.absolute()` yields for them. -/
def playlistLine (path : String) : String :=
  "file '" ++ path ++ "'"

/-- Body of the `for _ in range(100)` loops in `update_lists` (lines 80-81
and 87-88): 100 lines, each `random.choice` from the (shuffled) asset
snapshot.  The composition of `random.shuffle` with `random.choice` is
modelled by the oracle `choose : Nat → Nat`, reduced modulo the snapshot
length so every draw lands inside the list. -/
def mkPlaylist (assets : List String) (choose : Nat → Nat) : List String :=
  (List.range 100).map (fun i => playlistLine (assets.getD (choose i % assets.length) ""))

/-- `update_lists` (lines 73-88): writes the video list only when the video
snapshot is non-empty (`if v:`), and the audio list only when the audio
snapshot is non-empty (`if a:`); returns the contents written, `none`
meaning the file was not written. -/
def update_lists (vids auds : List String) (chooseV chooseA : Nat → Nat) :
    Option (List String) × Option (List String) :=
  ((if vids.isEmpty then none else some (mkPlaylist vids chooseV)),
   (if auds.isEmpty then none else some (mkPlaylist auds chooseA)))

/-- Python truthiness of the object returned by `AUDIO_DIR.glob("*")` at
line 97: `Path.glob` returns a generator object, and a generator is truthy
regardless of whether it would yield any item, so this branch condition is
`True` even when the audio directory is empty. -/
def globGeneratorTruthy : Bool := true

/-- The fixed encoder parameters shared by both branches (lines 100-104 and
109-113), minus the parts that differ. -/
def codecArgs : List String :=
  ["-c:v", "libx264", "-preset", "veryfast", "-b:v", "4500k",
   "-maxrate", "4500k", "-bufsize", "9000k",
   "-pix_fmt", "yuv420p", "-g", "60"]

/-- `cmd` construction (lines 92-116).  Note that the branch at line 97
tests `globGeneratorTruthy`, not whether any audio asset exists, so the
argument list never depends on the audio snapshot. -/
def buildCmd (session_id stream_key : String) : List String :=
  ["ffmpeg", "-re", "-f", "concat", "-safe", "0", "-i", videoListPath session_id]
    ++ (if globGeneratorTruthy then
          ["-f", "concat", "-safe", "0", "-i", audioListPath session_id]
            ++ codecArgs
            ++ ["-c:a", "aac", "-b:a", "128k", "-ar", "44100",
                "-map", "0:v:0", "-map", "1:a:0"]
        else
          ["-f", "lavfi", "-i", "anullsrc=channel_layout=stereo:sample_rate=44100"]
            ++ codecArgs
            ++ ["-c:a", "aac", "-b:a", "128k",
                "-map", "0:v:0", "-map", "1:a:0"])
    ++ ["-f", "flv", outputURL stream_key]

/-- `"Error" in line or "bitrate" in line` (line 125). -/
def significant (line : String) : Bool :=
  pyIn "Error" line || pyIn "bitrate" line

/-- How the `try` block of `run_ffmpeg` (lines 120-130) can end.
`spawnFailed`: `subprocess.Popen` itself raised, nothing spawned and no
output read.  `exited`: the process was spawned, its output drained and
`process.wait()` returned the given status (this covers normal exit,
error exit and external kill alike).  `interrupted`: the process was
spawned but an exception was raised after `outputLines` had been read. -/
inductive ExitOutcome
  | spawnFailed (excMsg : String)
  | exited (outputLines : List String) (exitCode : Int)
  | interrupted (outputLines : List String) (excMsg : String)

/-- Event appended by the `finally` block at line 134. -/
def endedEvent : String × String :=
  ("INFO", "⏹️ Streaming session ended")

/-- Number of processes spawned by the `try` block and the `(log_type,
message)` events it appends, per outcome: significant output lines are
forwarded stripped under `FFMPEG` (line 126), an exception is logged under
`ERROR` (line 130). -/
def tryBlock : ExitOutcome → Nat × List (String × String)
  | .spawnFailed msg => (0, [("ERROR", "❌ FFmpeg Error: " ++ msg)])
  | .exited lines _ => (1, (lines.filter significant).map (fun l => ("FFMPEG", l.trim)))
  | .interrupted lines msg =>
      (1, (lines.filter significant).map (fun l => ("FFMPEG", l.trim))
            ++ [("ERROR", "❌ FFmpeg Error: " ++ msg)])

/-- Observable result of one `run_ffmpeg` call: the log events it appended
in order, how many encoder processes it spawned, the argument list it
built (`none` if it returned before building one), the playlist file
contents it wrote (`none` = file never written), whether each transient
playlist file still exists afterwards (they are assumed absent before the
call), and the `st.session_state['streaming']` flag afterwards. -/
structure WorkerResult where
  events : List (String × String)
  spawned : Nat
  cmd : Option (List String)
  videoList : Option (List String)
  audioList : Option (List String)
  videoListExists : Bool
  audioListExists : Bool
  streaming : Bool
deriving Repr, DecidableEq

/-- `run_ffmpeg` (lines 54-135).  `vids`/`auds` are the glob snapshots
(absolute paths), assumed stable for the duration of the call;
`streaming0` is the streaming flag on entry.  If the video snapshot is
empty the function logs one `ERROR` and returns at line 68, before the
playlist files, the command and the `try/finally` are ever reached;
otherwise the `finally` (lines 131-135) unlinks both list files, appends
`endedEvent` and clears the streaming flag on every path through the
`try` block. -/
def run_ffmpeg (stream_key session_id : String) (vids auds : List String)
    (chooseV chooseA : Nat → Nat) (outcome : ExitOutcome) (streaming0 : Bool) :
    WorkerResult :=
  if vids.isEmpty then
    { events := [("ERROR", "No video files found in media/videos")],
      spawned := 0, cmd := none, videoList := none, audioList := none,
      videoListExists := false, audioListExists := false, streaming := streaming0 }
  else
    let lists := update_lists vids auds chooseV chooseA
    let c := buildCmd session_id stream_key
    let t := tryBlock outcome
    { events := ("INFO", "🚀 Starting Seamless Random Stream: " ++ outputURL stream_key)
        :: (t.2 ++ [endedEvent]),
      spawned := t.1, cmd := some c,
      videoList := lists.1, audioList := lists.2,
      videoListExists := false, audioListExists := false, streaming := false }

/-- The supervisor-side pieces of `st.session_state` (lines 144-147 and
218-219). -/
structure AppState where
  session_id : String
  streaming : Bool
  stream_key_saved : Option String
deriving Repr, DecidableEq

/-- Outcome of one click on the start control (lines 213-228). -/
inductive StartResult
  | disabledActive
  | validationError
  | started
deriving Repr, DecidableEq

/-- Start handler (lines 213-228).  The button at line 214 is rendered with
`disabled=st.session_state['streaming']`, so while the flag is set a click
is never delivered and the handler body cannot run (`disabledActive`).
Otherwise line 215 validates `not list(VIDEO_DIR.glob("*")) or not
stream_key` and only shows `st.error` on failure (`validationError`);
on success it sets the flags and spawns one worker thread (`started`).
The returned `Nat` counts worker threads spawned. -/
def startStreaming (s : AppState) (vids : List String) (stream_key : String) :
    AppState × StartResult × Nat :=
  if s.streaming then
    (s, .disabledActive, 0)
  else if vids.isEmpty || stream_key == "" then
    (s, .validationError, 0)
  else
    ({ s with streaming := true, stream_key_saved := some stream_key }, .started, 1)

/-- Outcome of one click on the stop control (lines 230-238). -/
inductive StopResult
  | disabledInactive
  | stopped
deriving Repr, DecidableEq

/-- Stop handler (lines 230-238).  The button is rendered with
`disabled=not st.session_state['streaming']`, so it is a no-op while not
streaming.  When it runs it terminates the tracked process, sweeps with
`pkill ffmpeg` and clears the flag; it appends no log events at all (the
list returned last is the events this handler writes). -/
def stopStreaming (s : AppState) : AppState × StopResult × List (String × String) :=
  if s.streaming then
    ({ s with streaming := false }, .stopped, [])
  else
    (s, .disabledInactive, [])

/-- Start handler composed with the worker it spawns (when it spawns one),
threading the event log `db` through: the components are the final app
state, the handler's result, the number of encoder processes spawned and
the log after the worker (if any) has run to completion. -/
def startAndRun (s : AppState) (db : List (String × String)) (vids auds : List String)
    (stream_key : String) (chooseV chooseA : Nat → Nat) (outcome : ExitOutcome) :
    AppState × StartResult × Nat × List (String × String) :=
  let h := startStreaming s vids stream_key
  if h.2.2 = 0 then
    (h.1, h.2.1, 0, db)
  else
    let r := run_ffmpeg stream_key h.1.session_id vids auds chooseV chooseA outcome true
    ({ h.1 with streaming := r.streaming }, h.2.1, r.spawned, db ++ r.events)

/-- The status banner at lines 241-242: shown iff the streaming flag is
set. -/
def statusBanner (s : AppState) : Option String :=
  if s.streaming then some "🔴 STATUS: LIVE (Seamless Random Mode)" else none

/-- A row of the `streaming_logs` table (lines 26-34): autoincrementing id,
ISO-8601 timestamp string, session id, log type, message. -/
structure LogRow where
  rid : Nat
  timestamp : String
  session_id : String
  log_type : String
  message : String
deriving Repr, DecidableEq

/-- The row `log_to_database` inserts: the autoincrement id is the current
row count. -/
def mkRow (db : List LogRow) (ts session_id log_type message : String) : LogRow :=
  ⟨db.length, ts, session_id, log_type, message⟩

/-- `log_to_database` (lines 40-51): one INSERT, appended at the end of the
table. -/
def log_to_database (db : List LogRow) (ts session_id log_type message : String) :
    List LogRow :=
  db ++ [mkRow db ts session_id log_type message]

/-- `ORDER BY timestamp DESC`: row `a` may precede row `b` when `b`'s
timestamp is at most `a`'s (timestamps are TEXT, compared as strings). -/
def tsGE (a b : LogRow) : Prop :=
  b.timestamp ≤ a.timestamp

instance : DecidableRel tsGE :=
  fun a b => inferInstanceAs (Decidable (b.timestamp ≤ a.timestamp))

instance : IsTrans LogRow tsGE :=
  ⟨fun _ _ _ hab hbc => le_trans hbc hab⟩

instance : IsTotal LogRow tsGE :=
  ⟨fun a b => le_total b.timestamp a.timestamp⟩

/-- The live-logs query at line 246: `SELECT ... WHERE session_id = ?
ORDER BY timestamp DESC LIMIT 50`.  SQLite leaves the relative order of
equal timestamps unspecified; the model fixes one ordering consistent
with `ORDER BY timestamp DESC`. -/
def recentLogs (db : List LogRow) (session_id : String) : List LogRow :=
  (List.insertionSort tsGE (db.filter (fun r => r.session_id == session_id))).take 50

/-- One "erase all" / "clear all" loop (lines 151-160, 176-182, 196-202):
`for f in files: try f.unlink() except Exception: pass`.  `fails f = true`
means unlinking `f` raises.  Returns the files still present after the
sweep, the per-file failure reports the loop produced, and the banner
shown afterwards. -/
def eraseAll (files : List String) (fails : String → Bool) :
    List String × List String × String :=
  match files with
  | [] => ([], [], "All media erased!")
  | f :: rest =>
      let r := eraseAll rest fails
      ((if fails f then f :: r.1 else r.1), r.2.1, r.2.2)

/-- The process-output lines the worker read before the `try` block ended,
per outcome (none were read when `Popen` itself raised). -/
def outcomeLines : ExitOutcome → List String
  | .spawnFailed _ => []
  | .exited lines _ => lines
  | .interrupted lines _ => lines

/-- The exception texts `e` interpolated into the line-130 ERROR message
`f"❌ FFmpeg Error: {e}"` — at most one per run, none when the `try` block
did not raise. -/
def outcomeExc : ExitOutcome → List String
  | .spawnFailed msg => [msg]
  | .exited _ _ => []
  | .interrupted _ msg => [msg]

end DataServer

namespace DataServer

/-! ## Helper lemmas -/

theorem isEmpty_false_of_ne_nil {α : Type} {l : List α} (h : l ≠ []) :
    l.isEmpty = false := by
  cases l with
  | nil => exact absurd rfl h
  | cons a t => rfl

theorem run_ffmpeg_ne_nil (stream_key session_id : String) {vids : List String}
    (auds : List String) (cV cA : Nat → Nat) (outcome : ExitOutcome) (b : Bool)
    (hv : vids ≠ []) :
    run_ffmpeg stream_key session_id vids auds cV cA outcome b =
      { events := ("INFO", "🚀 Starting Seamless Random Stream: " ++ outputURL stream_key)
          :: ((tryBlock outcome).2 ++ [endedEvent]),
        spawned := (tryBlock outcome).1,
        cmd := some (buildCmd session_id stream_key),
        videoList := (update_lists vids auds cV cA).1,
        audioList := (update_lists vids auds cV cA).2,
        videoListExists := false, audioListExists := false, streaming := false } := by
  cases vids with
  | nil => exact absurd rfl hv
  | cons a t => rfl

theorem update_lists_fst_ne_nil {vids : List String} (auds : List String)
    (cV cA : Nat → Nat) (hv : vids ≠ []) :
    (update_lists vids auds cV cA).1 = some (mkPlaylist vids cV) := by
  cases vids with
  | nil => exact absurd rfl hv
  | cons a t => rfl

/-! ## Claims -/

/-- C1: while the streaming flag is set the start control is disabled, so a
second start invocation while a session is Live has no effect: the app
state is unchanged, the invocation is rejected as already-active, and no
worker thread (hence no external process) is spawned. -/
theorem start_while_live_rejected (s : AppState) (vids : List String)
    (stream_key : String) (h : s.streaming = true) :
    startStreaming s vids stream_key = (s, .disabledActive, 0) := by
  simp [startStreaming, h]

theorem start_while_live_rejected_witness :
    (AppState.mk "sess" true none).streaming = true ∧
      startStreaming (AppState.mk "sess" true none) ["/media/videos/a.mp4"] "XYZ" =
        (AppState.mk "sess" true none, .disabledActive, 0) :=
  ⟨rfl, start_while_live_rejected (AppState.mk "sess" true none) ["/media/videos/a.mp4"] "XYZ" rfl⟩

/-- C6: a start invocation with an empty stream key or no video assets is
rejected by the validation at line 215 before any side effect: the app
state is unchanged, no worker thread and no external process is spawned,
and the event log is exactly what it was. -/
theorem start_validation_fails_fast (s : AppState) (db : List (String × String))
    (vids auds : List String) (stream_key : String) (cV cA : Nat → Nat)
    (outcome : ExitOutcome) (hs : s.streaming = false)
    (h : vids = [] ∨ stream_key = "") :
    startAndRun s db vids auds stream_key cV cA outcome = (s, .validationError, 0, db) := by
  rcases h with h | h <;> simp [startAndRun, startStreaming, hs, h]

theorem start_validation_fails_fast_witness :
    (AppState.mk "sess" false none).streaming = false ∧
      (([] : List String) = [] ∨ "XYZ" = "") ∧
      startAndRun (AppState.mk "sess" false none) [] [] [] "XYZ" (fun _ => 0) (fun _ => 0)
          (.exited [] 0) =
        (AppState.mk "sess" false none, .validationError, 0, []) :=
  ⟨rfl, Or.inl rfl,
    start_validation_fails_fast (AppState.mk "sess" false none) [] [] [] "XYZ"
      (fun _ => 0) (fun _ => 0) (.exited [] 0) rfl (Or.inl rfl)⟩

/-- C10: when the worker finds zero video assets it appends the single
Error event at line 67 and returns at line 68, before the playlist files,
the command and the guarded cleanup are reached: no session-ended event is
appended, no playlist file is written or removed, no process is spawned,
the streaming flag stays set, and the UI keeps rendering the LIVE
banner. -/
theorem worker_zero_videos_stays_live (stream_key session_id : String)
    (auds : List String) (cV cA : Nat → Nat) (outcome : ExitOutcome) :
    run_ffmpeg stream_key session_id [] auds cV cA outcome true =
      { events := [("ERROR", "No video files found in media/videos")],
        spawned := 0, cmd := none, videoList := none, audioList := none,
        videoListExists := false, audioListExists := false, streaming := true } ∧
    (run_ffmpeg stream_key session_id [] auds cV cA outcome true).events.count endedEvent = 0 ∧
    statusBanner ⟨session_id,
        (run_ffmpeg stream_key session_id [] auds cV cA outcome true).streaming, none⟩ =
      some "🔴 STATUS: LIVE (Seamless Random Mode)" :=
  ⟨rfl, rfl, rfl⟩

/-- C9 counterexample: erasing `["a.mp4", "b.mp4"]` when unlinking
`"a.mp4"` raises: the loop swallows the failure with `pass`, so the batch
continues (`"b.mp4"` is removed) but the failure report list is empty and
the unconditional success banner is still shown — no individual failure is
reported, contradicting the claim. -/
theorem erase_failure_unreported :
    eraseAll ["a.mp4", "b.mp4"] (fun f => f == "a.mp4") =
      (["a.mp4"], [], "All media erased!") := by decide

/-- C9 amended: a failure to remove one file never aborts removal of the
remaining files — after the sweep exactly the failing files remain, so
every file whose removal does not raise is gone — but individual removal
failures are silently swallowed (`except Exception: pass`): the per-file
failure report list is always empty and the success banner is shown
unconditionally. -/
theorem erase_continues_but_swallows (files : List String) (fails : String → Bool) :
    (eraseAll files fails).1 = files.filter fails
    ∧ (eraseAll files fails).2.1 = []
    ∧ (eraseAll files fails).2.2 = "All media erased!"
    ∧ (∀ f, fails f = false → f ∉ (eraseAll files fails).1) := by
  have key : (eraseAll files fails).1 = files.filter fails
      ∧ (eraseAll files fails).2.1 = []
      ∧ (eraseAll files fails).2.2 = "All media erased!" := by
    induction files with
    | nil => exact ⟨rfl, rfl, rfl⟩
    | cons f rest ih =>
        refine ⟨?_, ?_, ?_⟩
        · simp only [eraseAll, List.filter_cons, ih.1]
        · simpa only [eraseAll] using ih.2.1
        · simpa only [eraseAll] using ih.2.2
  refine ⟨key.1, key.2.1, key.2.2, fun f hf hmem => ?_⟩
  rw [key.1] at hmem
  exact absurd ((List.mem_filter.mp hmem).2) (by simp [hf])

theorem erase_continues_but_swallows_witness :
    ((fun f => f == "a.mp4") "b.mp4" = false) ∧
      "b.mp4" ∉ (eraseAll ["a.mp4", "b.mp4"] (fun f => f == "a.mp4")).1 :=
  ⟨rfl, (erase_continues_but_swallows ["a.mp4", "b.mp4"] (fun f => f == "a.mp4")).2.2.2
    "b.mp4" rfl⟩

/-- C3 (the code contradicts the documented fallback): with zero audio
assets and one video asset, the worker still builds an invocation whose
second input is the (never written) audio playlist file, not the synthetic
silent-audio source: the branch at line 97 tests a generator object, which
is always truthy, so the `anullsrc` else-branch at lines 107-114 is dead
code.  Concretely: the audio list file is not written, yet the argument
list contains it as the second `-i` input and contains no `anullsrc`
source. -/
theorem zero_audio_still_references_audio_list :
    (run_ffmpeg "XYZ" "sess" ["/media/videos/a.mp4"] [] (fun _ => 0) (fun _ => 0)
        (.exited [] 0) true).cmd = some (buildCmd "sess" "XYZ")
    ∧ (run_ffmpeg "XYZ" "sess" ["/media/videos/a.mp4"] [] (fun _ => 0) (fun _ => 0)
        (.exited [] 0) true).audioList = none
    ∧ (buildCmd "sess" "XYZ").getD 13 "" = audioListPath "sess"
    ∧ audioListPath "sess" ∈ buildCmd "sess" "XYZ"
    ∧ "anullsrc=channel_layout=stereo:sample_rate=44100" ∉ buildCmd "sess" "XYZ" :=
  ⟨rfl, rfl, by decide, by decide, by decide⟩

/-- C5 counterexample: the external process exits with status 1 (no output
lines) and the worker records no Error-category event at all — the exit
status is never inspected — so "an Error-category event is recorded" fails;
nor is there any `Failed` state distinct from the cleared streaming flag. -/
theorem nonzero_exit_no_error_event :
    ((run_ffmpeg "XYZ" "sess" ["/media/videos/a.mp4"] [] (fun _ => 0) (fun _ => 0)
        (.exited [] 1) true).events.filter (fun e => e.1 == "ERROR")) = []
    ∧ (run_ffmpeg "XYZ" "sess" ["/media/videos/a.mp4"] [] (fun _ => 0) (fun _ => 0)
        (.exited [] 1) true).events.count endedEvent = 1 := by
  exact ⟨rfl, rfl⟩

/-- C5 amended: when the external process exits with a non-zero status the
transient playlist files are removed and the streaming flag is cleared by
the guarded cleanup, and the final Info session-ended event is appended —
but no Error-category event is recorded and no distinct Failed state
exists: the worker never inspects the exit status, so the result is
identical for any two exit codes. -/
theorem nonzero_exit_cleanup_no_error (stream_key session_id : String)
    (vids auds : List String) (cV cA : Nat → Nat) (lines : List String)
    (code code2 : Int) (b : Bool) (hv : vids ≠ []) :
    (run_ffmpeg stream_key session_id vids auds cV cA (.exited lines code) b).videoListExists
        = false
    ∧ (run_ffmpeg stream_key session_id vids auds cV cA (.exited lines code) b).audioListExists
        = false
    ∧ (run_ffmpeg stream_key session_id vids auds cV cA (.exited lines code) b).streaming
        = false
    ∧ endedEvent ∈ (run_ffmpeg stream_key session_id vids auds cV cA (.exited lines code) b).events
    ∧ (∀ e ∈ (run_ffmpeg stream_key session_id vids auds cV cA (.exited lines code) b).events,
        e.1 ≠ "ERROR")
    ∧ run_ffmpeg stream_key session_id vids auds cV cA (.exited lines code) b
        = run_ffmpeg stream_key session_id vids auds cV cA (.exited lines code2) b := by
  rw [run_ffmpeg_ne_nil stream_key session_id auds cV cA (.exited lines code) b hv,
    run_ffmpeg_ne_nil stream_key session_id auds cV cA (.exited lines code2) b hv]
  refine ⟨rfl, rfl, rfl, by simp, ?_, rfl⟩
  intro e he
  simp only [List.mem_cons, List.mem_append, List.mem_singleton, tryBlock,
    List.mem_map] at he
  rcases he with h | ⟨l, _, h⟩ | h | h
  · subst h; simp
  · subst h; simp
  · subst h; simp [endedEvent]
  · exact absurd h (List.not_mem_nil e)

theorem nonzero_exit_cleanup_no_error_witness :
    (["/media/videos/a.mp4"] : List String) ≠ [] ∧
      (∀ e ∈ (run_ffmpeg "XYZ" "sess" ["/media/videos/a.mp4"] [] (fun _ => 0) (fun _ => 0)
          (.exited [] 1) true).events, e.1 ≠ "ERROR") :=
  ⟨by decide,
    (nonzero_exit_cleanup_no_error "XYZ" "sess" ["/media/videos/a.mp4"] [] (fun _ => 0)
      (fun _ => 0) [] 1 0 true (by decide)).2.2.2.2.1⟩

theorem tryBlock_count_ended (outcome : ExitOutcome) :
    ((tryBlock outcome).2).count endedEvent = 0 := by
  rw [List.count_eq_zero]
  cases outcome with
  | spawnFailed msg =>
      simp only [tryBlock, List.mem_singleton]
      intro h
      exact absurd (congrArg Prod.fst h) (by simp [endedEvent])
  | exited lines code =>
      simp only [tryBlock, List.mem_map]
      rintro ⟨l, -, h⟩
      exact absurd (congrArg Prod.fst h.symm) (by simp [endedEvent])
  | interrupted lines msg =>
      simp only [tryBlock, List.mem_append, List.mem_map, List.mem_singleton]
      rintro (⟨l, -, h⟩ | h)
      · exact absurd (congrArg Prod.fst h.symm) (by simp [endedEvent])
      · exact absurd (congrArg Prod.fst h) (by simp [endedEvent])

theorem start_msg_ne_ended (stream_key : String) :
    ("🚀 Starting Seamless Random Stream: " ++ outputURL stream_key)
      ≠ "⏹️ Streaming session ended" := by
  intro h
  have hlen := congrArg String.length h
  rw [String.length_append, outputURL, String.length_append] at hlen
  have l1 : "🚀 Starting Seamless Random Stream: ".length = 35 := by decide
  have l2 : "rtmp://a.rtmp.youtube.com/live2/".length = 32 := by decide
  have l3 : "⏹️ Streaming session ended".length = 26 := by decide
  rw [l1, l2, l3] at hlen
  omega

theorem stop_flag_false (s : AppState) : (stopStreaming s).1.streaming = false := by
  by_cases h : s.streaming <;> simp [stopStreaming, h]

/-- C2: for every worker run that got past validation (some video asset
present), the guarded cleanup of the `finally` block runs exactly once on
every exit path — the transient playlist files are gone afterwards,
exactly one session-ended Info event is appended, and the streaming flag
is cleared — and the stop handler itself appends no events and is
idempotent: a second stop finds the flag already cleared, is a no-op, and
so two stops in succession never append a session-ended event nor re-run
cleanup. -/
theorem cleanup_exactly_once_stop_idempotent (stream_key session_id : String)
    (vids auds : List String) (cV cA : Nat → Nat) (outcome : ExitOutcome) (b : Bool)
    (s : AppState) (hv : vids ≠ []) :
    (run_ffmpeg stream_key session_id vids auds cV cA outcome b).events.count endedEvent = 1
    ∧ (run_ffmpeg stream_key session_id vids auds cV cA outcome b).videoListExists = false
    ∧ (run_ffmpeg stream_key session_id vids auds cV cA outcome b).audioListExists = false
    ∧ (run_ffmpeg stream_key session_id vids auds cV cA outcome b).streaming = false
    ∧ (stopStreaming s).2.2 = []
    ∧ stopStreaming (stopStreaming s).1 = ((stopStreaming s).1, .disabledInactive, []) := by
  rw [run_ffmpeg_ne_nil stream_key session_id auds cV cA outcome b hv]
  refine ⟨?_, rfl, rfl, rfl, ?_, ?_⟩
  · have hne := start_msg_ne_ended stream_key
    have h1 : ((("INFO",
        "🚀 Starting Seamless Random Stream: " ++ outputURL stream_key) : String × String)
          == endedEvent) = false := by
      rw [beq_eq_false_iff_ne]
      intro hp
      exact hne (by simpa [endedEvent] using congrArg Prod.snd hp)
    have h2 : ((endedEvent : String × String) ==
        ("INFO", "🚀 Starting Seamless Random Stream: " ++ outputURL stream_key)) = false := by
      rw [beq_eq_false_iff_ne]
      intro hp
      exact hne (by simpa [endedEvent] using congrArg Prod.snd hp.symm)
    simp [List.count_cons, List.count_append, tryBlock_count_ended, h1, h2]
  · by_cases h : s.streaming <;> simp [stopStreaming, h]
  · have h := stop_flag_false s
    generalize hgen : (stopStreaming s).1 = s1 at h ⊢
    simp [stopStreaming, h]

theorem cleanup_exactly_once_stop_idempotent_witness :
    (["/media/videos/a.mp4"] : List String) ≠ [] ∧
      (run_ffmpeg "XYZ" "sess" ["/media/videos/a.mp4"] [] (fun _ => 0) (fun _ => 0)
          (.exited [] 0) true).events.count endedEvent = 1 :=
  ⟨by decide,
    (cleanup_exactly_once_stop_idempotent "XYZ" "sess" ["/media/videos/a.mp4"] []
      (fun _ => 0) (fun _ => 0) (.exited [] 0) true (AppState.mk "sess" true none)
      (by decide)).1⟩

/-- C7: for every non-empty video snapshot the worker writes the video
playlist reference file, and its contents are exactly 100 lines, each of
the form `file '<absolute-path>'` where the path is one of the assets of
the snapshot taken at generation time. -/
theorem playlist_hundred_lines (stream_key session_id : String)
    (vids auds : List String) (cV cA : Nat → Nat) (outcome : ExitOutcome) (b : Bool)
    (hv : vids ≠ []) :
    (run_ffmpeg stream_key session_id vids auds cV cA outcome b).videoList
        = some (mkPlaylist vids cV)
    ∧ (mkPlaylist vids cV).length = 100
    ∧ (∀ line ∈ mkPlaylist vids cV, ∃ a ∈ vids, line = "file '" ++ a ++ "'") := by
  refine ⟨?_, by simp [mkPlaylist], ?_⟩
  · rw [run_ffmpeg_ne_nil stream_key session_id auds cV cA outcome b hv]
    exact update_lists_fst_ne_nil auds cV cA hv
  · intro line hline
    simp only [mkPlaylist, List.mem_map, List.mem_range] at hline
    obtain ⟨i, -, rfl⟩ := hline
    have hpos : 0 < vids.length := List.length_pos.mpr hv
    have hlt : cV i % vids.length < vids.length := Nat.mod_lt _ hpos
    refine ⟨vids.get ⟨cV i % vids.length, hlt⟩, vids.get_mem _ _, ?_⟩
    have hgd : vids.getD (cV i % vids.length) "" = vids.get ⟨cV i % vids.length, hlt⟩ := by
      simp [List.getD_eq_getElem?_getD, List.getElem?_eq_getElem hlt]
    rw [playlistLine, hgd]

theorem playlist_hundred_lines_witness :
    (["/media/videos/a.mp4"] : List String) ≠ [] ∧
      (mkPlaylist ["/media/videos/a.mp4"] (fun _ => 0)).length = 100 :=
  ⟨by decide,
    (playlist_hundred_lines "XYZ" "sess" ["/media/videos/a.mp4"] [] (fun _ => 0)
      (fun _ => 0) (.exited [] 0) true (by decide)).2.1⟩

theorem pyIn_of_data_suffix {needle hay : String} (h : List.IsSuffix needle.data hay.data) :
    pyIn needle hay = true := by
  simpa [pyIn, occursIn] using h.isInfix

theorem pyIn_start_msg (stream_key : String) :
    pyIn stream_key
      ("🚀 Starting Seamless Random Stream: " ++ outputURL stream_key) = true := by
  apply pyIn_of_data_suffix
  have h1 : ("🚀 Starting Seamless Random Stream: " ++ outputURL stream_key).data
      = "🚀 Starting Seamless Random Stream: ".data
          ++ ("rtmp://a.rtmp.youtube.com/live2/".data ++ stream_key.data) := rfl
  rw [h1]
  exact (List.suffix_append _ _).trans (List.suffix_append _ _)

/-- C4 counterexample: with stream key `"SECRETKEY"` the session-start Info
event written at line 118 embeds the destination URL, and its message
therefore contains the stream key — the key is persisted into the event
log, contradicting "no log event's message contains the stream key". -/
theorem stream_key_logged :
    ∃ e ∈ (run_ffmpeg "SECRETKEY" "sess" ["/media/videos/a.mp4"] [] (fun _ => 0)
        (fun _ => 0) (.exited [] 0) true).events,
      pyIn "SECRETKEY" e.2 = true :=
  ⟨("INFO", "🚀 Starting Seamless Random Stream: " ++ outputURL "SECRETKEY"),
    List.mem_cons_self _ _, pyIn_start_msg "SECRETKEY"⟩

/-- C4 amended: the stream key reaches the event log in exactly one place —
the session-start Info event whose message embeds the destination URL; on
every worker run, whatever the exit path, no other event message written
by the worker contains the key, provided the key does not happen to occur
in the externally produced text the worker interpolates verbatim (process
output lines forwarded under FFMPEG, exception text embedded in the
line-130 ERROR message) or in the fixed session-ended phrase. -/
theorem stream_key_only_in_start_event (stream_key session_id : String)
    (vids auds : List String) (cV cA : Nat → Nat) (outcome : ExitOutcome)
    (b : Bool) (hv : vids ≠ [])
    (hlines : ∀ l ∈ outcomeLines outcome, pyIn stream_key l.trim = false)
    (hexc : ∀ m ∈ outcomeExc outcome,
      pyIn stream_key ("❌ FFmpeg Error: " ++ m) = false)
    (hended : pyIn stream_key "⏹️ Streaming session ended" = false) :
    ((run_ffmpeg stream_key session_id vids auds cV cA outcome b).events.filter
        (fun e => pyIn stream_key e.2))
      = [("INFO", "🚀 Starting Seamless Random Stream: " ++ outputURL stream_key)] := by
  rw [run_ffmpeg_ne_nil stream_key session_id auds cV cA outcome b hv]
  show List.filter _ (_ :: _) = _
  rw [List.filter_cons_of_pos (by simpa using pyIn_start_msg stream_key)]
  have htry : ∀ e ∈ (tryBlock outcome).2, pyIn stream_key e.2 = false := by
    cases outcome with
    | spawnFailed msg =>
        intro e he
        rw [List.mem_singleton.mp he]
        exact hexc msg (List.mem_singleton.mpr rfl)
    | exited lines code =>
        intro e he
        simp only [tryBlock, List.mem_map] at he
        obtain ⟨l, hl, rfl⟩ := he
        exact hlines l (List.mem_of_mem_filter hl)
    | interrupted lines msg =>
        intro e he
        simp only [tryBlock, List.mem_append, List.mem_map, List.mem_singleton] at he
        rcases he with ⟨l, hl, rfl⟩ | rfl
        · exact hlines l (List.mem_of_mem_filter hl)
        · exact hexc msg (List.mem_singleton.mpr rfl)
  have hrest : (((tryBlock outcome).2 ++ [endedEvent]).filter
      (fun e => pyIn stream_key e.2)) = [] := by
    rw [List.filter_eq_nil_iff]
    intro e he
    rcases List.mem_append.mp he with he | he
    · simp [htry e he]
    · rw [List.mem_singleton.mp he]
      simpa [endedEvent] using hended
  rw [hrest]

theorem stream_key_only_in_start_event_witness :
    (["/media/videos/a.mp4"] : List String) ≠ []
    ∧ (∀ l ∈ outcomeLines (.spawnFailed "boom"), pyIn "SECRETKEY" l.trim = false)
    ∧ (∀ m ∈ outcomeExc (.spawnFailed "boom"),
        pyIn "SECRETKEY" ("❌ FFmpeg Error: " ++ m) = false)
    ∧ pyIn "SECRETKEY" "⏹️ Streaming session ended" = false
    ∧ ((run_ffmpeg "SECRETKEY" "sess" ["/media/videos/a.mp4"] [] (fun _ => 0) (fun _ => 0)
          (.spawnFailed "boom") true).events.filter (fun e => pyIn "SECRETKEY" e.2))
        = [("INFO", "🚀 Starting Seamless Random Stream: " ++ outputURL "SECRETKEY")] :=
  ⟨by decide, by decide, by decide, by decide,
    stream_key_only_in_start_event "SECRETKEY" "sess" ["/media/videos/a.mp4"] []
      (fun _ => 0) (fun _ => 0) (.spawnFailed "boom") true (by decide) (by decide)
      (by decide) (by decide)⟩

/-- C8: the recent-events query returns only rows recorded under the
queried session id, at most 50 of them, in descending timestamp order;
and any row appended for that session id — in particular the one
`log_to_database` just inserted — is retrieved whenever the session's
row count fits within the result cap. -/
theorem log_roundtrip (db : List LogRow) (sid ts ty msg : String) :
    (∀ r ∈ recentLogs db sid, r.session_id = sid)
    ∧ (recentLogs db sid).length ≤ 50
    ∧ List.Sorted tsGE (recentLogs db sid)
    ∧ (((log_to_database db ts sid ty msg).filter (fun r => r.session_id == sid)).length ≤ 50 →
        mkRow db ts sid ty msg ∈ recentLogs (log_to_database db ts sid ty msg) sid) := by
  refine ⟨?_, ?_, ?_, ?_⟩
  · intro r hr
    have h1 : r ∈ List.insertionSort tsGE (db.filter (fun r => r.session_id == sid)) :=
      (List.take_sublist _ _).subset hr
    have h2 : r ∈ db.filter (fun r => r.session_id == sid) :=
      (List.perm_insertionSort tsGE _).subset h1
    exact eq_of_beq (List.mem_filter.mp h2).2
  · exact List.length_take_le _ _
  · exact (List.sorted_insertionSort tsGE _).sublist (List.take_sublist _ _)
  · intro hcap
    have hmem : mkRow db ts sid ty msg
        ∈ (log_to_database db ts sid ty msg).filter (fun r => r.session_id == sid) := by
      refine List.mem_filter.mpr ⟨?_, ?_⟩
      · exact List.mem_append_right _ (List.mem_singleton.mpr rfl)
      · exact beq_self_eq_true sid
    have hperm := List.perm_insertionSort tsGE
      ((log_to_database db ts sid ty msg).filter (fun r => r.session_id == sid))
    have hsorted : mkRow db ts sid ty msg
        ∈ List.insertionSort tsGE
            ((log_to_database db ts sid ty msg).filter (fun r => r.session_id == sid)) :=
      hperm.mem_iff.mpr hmem
    have hlen : (List.insertionSort tsGE
        ((log_to_database db ts sid ty msg).filter
          (fun r => r.session_id == sid))).length ≤ 50 := by
      rw [hperm.length_eq]
      exact hcap
    show mkRow db ts sid ty msg ∈ (List.insertionSort tsGE _).take 50
    rw [List.take_of_length_le hlen]
    exact hsorted

theorem log_roundtrip_witness :
    (((log_to_database [] "2026-01-01T00:00:00" "sess" "INFO" "hello").filter
        (fun r => r.session_id == "sess")).length ≤ 50)
    ∧ mkRow [] "2026-01-01T00:00:00" "sess" "INFO" "hello"
        ∈ recentLogs (log_to_database [] "2026-01-01T00:00:00" "sess" "INFO" "hello")
            "sess" :=
  ⟨by decide,
    (log_roundtrip [] "sess" "2026-01-01T00:00:00" "INFO" "hello").2.2.2 (by decide)⟩

end DataServer
